import Mathlib

/-!
Shallow embedding of the valuation / opportunity-scoring engine of the
housing-complex tracker (Next.js + Supabase front end).  JavaScript numbers
are modelled as exact rationals (`ℚ`); a nullable / possibly non-finite
numeric field is `Option ℚ`, where `none` stands for `null`, `undefined`,
`NaN` and `±Infinity` alike (the code routes every such value through
`safeNum`-style guards, which only distinguish "finite number" from
"everything else").  Dates are modelled as millisecond timestamps `ℤ`;
an unparseable or missing date is `none`.
-/

/-- JavaScript `Math.round`: round half toward positive infinity. -/
def jsRound (q : ℚ) : ℤ := (q + 1/2).floor

/-- JavaScript `Math.floor`. -/
def jsFloor (q : ℚ) : ℤ := q.floor

theorem jsRound_eq (q : ℚ) : jsRound q = ⌊q + 1/2⌋ := by
  rw [jsRound, Rat.floor_def', ← Rat.floor_def]

theorem jsFloor_eq (q : ℚ) : jsFloor q = ⌊q⌋ := by
  rw [jsFloor, Rat.floor_def', ← Rat.floor_def]

/-- The guard `safeNum(n, d)` from `src/app/tab-list/page.tsx` line 55 (同 `src/app/page.tsx`
line 245): a finite number passes through, anything else becomes the default. -/
def safeNumD (n : Option ℚ) (d : ℚ) : ℚ :=
  match n with
  | some x => x
  | none => d

/-- The guard `safeNum(n)` from `src/app/tab-stock/page.tsx` line 68 (same with default 0). -/
def safeNum (n : Option ℚ) : ℚ := safeNumD n 0

/-- JavaScript `a || b` on already-coerced finite numbers: `a` is falsy iff 0. -/
def jsOr (a b : ℚ) : ℚ := if a = 0 then b else a

/-- The `moveCost` middle-tier expression `Math.round(area * (132000 - (area - 60) * 400))`
(`src/app/tab-list/page.tsx` line 111, `src/app/tab-stock/[stockId]/edit/page.tsx`
line 249 and three further call sites, verbatim). -/
def moveCostMid (area : ℚ) : ℤ := jsRound (area * (132000 - (area - 60) * 400))

/-- The `moveCost` low-tier expression `Math.round(area * 132000)`. -/
def moveCostLow (area : ℚ) : ℤ := jsRound (area * 132000)

/-- The `moveCost` high-tier expression `Math.round(area * 123000)`. -/
def moveCostHigh (area : ℚ) : ℤ := jsRound (area * 123000)

/-- The tiered cost `const moveCost = area < 60 ? Math.round(area * 132000) : (area >= 80 ?
Math.round(area * 123000) : Math.round(area * (132000 - (area - 60) * 400)))`
(`src/app/tab-list/page.tsx` line 111 and the identical copies). -/
def moveCost (area : ℚ) : ℤ :=
  if area < 60 then moveCostLow area
  else if area ≥ 80 then moveCostHigh area
  else moveCostMid area

/-- The fee `const brokerage = raise < 10_000_000 ? 550_000 : Math.round(raise * 0.055)`
(`src/app/tab-list/page.tsx` line 112 and the identical copies). -/
def brokerage (raise : ℚ) : ℤ :=
  if raise < 10000000 then 550000 else jsRound (raise * (55/1000))

/-- The fee `const other = Math.round(raise * 0.075)`. -/
def otherCost (raise : ℚ) : ℤ := jsRound (raise * (75/1000))

example : jsRound (33/10) = 3 := by rw [jsRound_eq]; norm_num
example : jsRound (-5/10) = 0 := by rw [jsRound_eq]; norm_num
example : moveCost 80 = 9840000 := by norm_num [moveCost, moveCostHigh, jsRound_eq]
example : moveCostMid 80 = 9920000 := by norm_num [moveCostMid, jsRound_eq]
example : brokerage 9000000 = 550000 := by norm_num [brokerage]
example : brokerage 10000000 = 550000 := by norm_num [brokerage, jsRound_eq]

namespace TabList

/-- The columns of an `estate_entries` row consumed by `src/app/tab-list/page.tsx`
(type `Row`, lines 9-22).  Numeric columns are `Option ℚ` (`none` = null / undefined /
non-finite); date columns are already-parsed millisecond timestamps, `none` when the
string is absent or `new Date` yields `NaN` (`parseDate`, line 56). -/
structure Row where
  area_sqm : Option ℚ
  max_price : Option ℚ
  coef_total : Option ℚ
  past_min : Option ℚ
  reins_registered_date : Option ℤ
  contract_date : Option ℤ

/-- The helper `diffDays(a, b)` of `src/app/tab-list/page.tsx` line 57 (identical in
`src/app/sample/pattern_2_list/tab-list/page.tsx` line 67): zero when either date is
missing, otherwise `Math.round(Math.abs(+a - +b) / 86400000)`. -/
def diffDays (a b : Option ℤ) : ℤ :=
  match a, b with
  | some x, some y => jsRound (|(x : ℚ) - (y : ℚ)| / 86400000)
  | _, _ => 0

/-- The derived view-model record (type `Item`, lines 24-44; only the numeric fields
the valuation engine produces). -/
structure Item where
  area : ℚ
  unitPrice : ℤ
  coefTotal : ℚ
  targetClose : ℤ
  raise : ℤ
  buyTarget : ℤ
  pastMin : ℚ
  pastMax : ℚ
  pastMiniDays : ℤ

/-- The per-row mapping of `src/app/tab-list/page.tsx` lines 100-117 (`mapped`): the
same formulas appear at `src/app/page.tsx` lines 321-335 (`computed`) and in the
sample list page. -/
def mapItem (r : Row) : Item :=
  let area := safeNumD r.area_sqm 0
  let pastMax := safeNumD r.max_price 0
  let coef := safeNumD r.coef_total 1
  let pastMin := safeNumD r.past_min 0
  let unit : ℤ := if 0 < area then jsRound (pastMax / area) else 0
  let targetClose : ℤ := jsRound ((unit : ℚ) * area * coef)
  let raiseFloat : ℚ := (targetClose : ℚ) / (121/100)
  let raise : ℤ := jsFloor (raiseFloat / 10000) * 10000
  let mc : ℤ := moveCost area
  let bk : ℤ := brokerage (raise : ℚ)
  let ot : ℤ := otherCost (raise : ℚ)
  { area := area
    unitPrice := unit
    coefTotal := coef
    targetClose := targetClose
    raise := raise
    buyTarget := raise - mc - bk - ot
    pastMin := pastMin
    pastMax := pastMax
    pastMiniDays := diffDays r.reins_registered_date r.contract_date }

/-- The flag record returned by `judge` (lines 180-187). -/
structure Flags where
  diff : ℚ
  near : Bool
  fast : Bool
  high : Bool
  focus : Bool

/-- Thresholds `thGap`, `thDays`, `thCoef` (lines 77-79). -/
def thGap : ℚ := 300000

def thDays : ℤ := 30

def thCoef : ℚ := 105/100

/-- The scorer `judge(p)` of `src/app/tab-list/page.tsx` lines 180-187, identical at
`src/app/sample/pattern_2_list/tab-list/page.tsx` lines 246-253. -/
def judge (p : Item) : Flags :=
  let d : ℚ := p.pastMin - (p.buyTarget : ℚ)
  let near : Bool := decide (|d| ≤ thGap)
  let fast : Bool := decide (0 < p.pastMiniDays) && decide (p.pastMiniDays ≤ thDays)
  let high : Bool := decide (p.pastMax < (p.targetClose : ℚ)) && decide (thCoef ≤ p.coefTotal)
  { diff := d, near := near, fast := fast, high := high, focus := near && fast }

end TabList

namespace TabStock

/-- The columns of an `estate_stocks` row consumed by `src/app/tab-stock/page.tsx`
(select list, lines 138-143). -/
structure StockRow where
  area_sqm : Option ℚ
  list_price : Option ℚ
  target_unit_price : Option ℚ
  target_close_price : Option ℚ
  buy_target_price : Option ℚ
  raise_price : Option ℚ
  base_unit_price : Option ℚ
  coef_total : Option ℚ
  floor_coef : Option ℚ
  registered_date : Option ℤ

/-- The helper `diffDays(a)` of `src/app/tab-stock/page.tsx` lines 70-76: whole days
between the registered date and `new Date()` (passed here as the explicit timestamp
`now`), zero when the date is missing; the contract date plays no part. -/
def diffDays (now : ℤ) (a : Option ℤ) : ℤ :=
  match a with
  | some x => jsRound (|(now : ℚ) - (x : ℚ)| / 86400000)
  | none => 0

/-- The quality coefficient of line 156: `const coef = safeNum(r.coef_total) || 1`. -/
def coefOf (r : StockRow) : ℚ := jsOr (safeNum r.coef_total) 1

/-- The floor coefficient of line 157: `const floorCoef = safeNum(r.floor_coef) || 1`. -/
def floorCoefOf (r : StockRow) : ℚ := jsOr (safeNum r.floor_coef) 1

/-- The derived card (type `Card`, lines 39-60; numeric fields only). -/
structure Card where
  area : ℚ
  price : ℚ
  unit : ℤ
  targetUnit : ℚ
  targetPrice : ℚ
  buyTarget : ℚ
  raise : ℚ
  days : ℤ

/-- The per-row mapping of `src/app/tab-stock/page.tsx` lines 150-186 (`mapped`):
every stage prefers the stored column when it is present and non-zero (JavaScript
`||`) and recomputes otherwise. -/
def mapCard (now : ℤ) (r : StockRow) : Card :=
  let area := safeNum r.area_sqm
  let listPrice := safeNum r.list_price
  let unitStored := safeNum r.target_unit_price
  let baseUnit := safeNum r.base_unit_price
  let coef := coefOf r
  let floorCoef := floorCoefOf r
  let unit : ℤ := if 0 < area then jsRound (listPrice / area) else 0
  let targetUnit : ℚ := jsOr unitStored (jsRound (baseUnit * coef * floorCoef) : ℚ)
  let targetPriceStored := safeNum r.target_close_price
  let targetPrice : ℚ := jsOr targetPriceStored (jsRound (targetUnit * area) : ℚ)
  let raiseStored := safeNum r.raise_price
  let raise : ℚ := jsOr raiseStored ((jsFloor ((targetPrice / (121/100)) / 10000) * 10000 : ℤ) : ℚ)
  let buyStored := safeNum r.buy_target_price
  let buyTarget : ℚ :=
    jsOr buyStored (raise - (moveCost area : ℚ) - (brokerage raise : ℚ) - (otherCost raise : ℚ))
  { area := area
    price := listPrice
    unit := unit
    targetUnit := targetUnit
    targetPrice := targetPrice
    buyTarget := buyTarget
    raise := raise
    days := diffDays now r.registered_date }

end TabStock

/-- The static table `floorCoefs` of `src/app/tab-regist/[entryId]/edit/page.tsx`
lines 82-87, duplicated verbatim in the `tab-list` client component and in
`src/app/tab-stock/[stockId]/edit/page.tsx`: the four fixed floor-utility patterns,
each an ordered list of five per-floor multipliers; any other name is absent. -/
def floorCoefs (pattern : String) : Option (List ℚ) :=
  if pattern = "①保守的" then some [1, 98/100, 95/100, 9/10, 85/100]
  else if pattern = "②中間" then some [1, 99/100, 96/100, 92/100, 88/100]
  else if pattern = "③攻め" then some [1, 1, 99/100, 98/100, 97/100]
  else if pattern = "④超攻め" then some [98/100, 99/100, 1, 103/100, 107/100]
  else none

/-- JavaScript array indexing `l[i]`: `undefined` (here `none`) outside `[0, length)`. -/
def jsIndex (l : List ℚ) (i : ℤ) : Option ℚ :=
  if i < 0 then none else l.get? i.toNat

namespace RegistEdit

/-- The lookup `maxFloorCoef` of `src/app/tab-regist/[entryId]/edit/page.tsx`
lines 293-303: unknown pattern or empty list yields 1; a parsed floor number indexes
`list[floor - 1]`; when that entry is `undefined` (floor out of range) or the floor
did not parse (`none`), the lookup falls back to `list[0]`. -/
def maxFloorCoef (pattern : String) (floorNum : Option ℤ) : ℚ :=
  match floorCoefs pattern with
  | none => 1
  | some list =>
    if list.isEmpty then 1
    else
      match floorNum with
      | some f =>
        match jsIndex list (f - 1) with
        | some c => c
        | none => list.headD 1
      | none => list.headD 1

end RegistEdit

namespace Part004

/-- The quality coefficient of the `tab-list` client component (`src/unnamed/part_004`
line 167): `safeNum(base.coef_total ?? (safeNum(base.interior_level_coef) +
safeNum(base.contract_year_coef))) || 1`. -/
def baseCoef (coefTotal interior yearCoef : Option ℚ) : ℚ :=
  jsOr (safeNum (some (match coefTotal with
    | some c => c
    | none => safeNum interior + safeNum yearCoef))) 1

/-- The comparable unit price (line 166): `area > 0 ? Math.round(price / area) : 0`. -/
def unitOf (price area : ℚ) : ℤ :=
  if 0 < area then jsRound (price / area) else 0

/-- One row of the per-floor projection table (lines 168-180). -/
structure FloorRow where
  floor : ℕ
  predictedUnit : ℤ
  targetUnit : ℤ
  targetClose : ℤ
  raise : ℤ
  moveCost : ℤ
  brokerage : ℤ
  other : ℤ
  buyTarget : ℤ
  buyTargetUnit : ℤ

/-- The body of the `floors` map of `src/unnamed/part_004` lines 168-180, for one
floor multiplier `c` at position `idx`. -/
def floorRow (unit : ℤ) (area baseCoef c : ℚ) (idx : ℕ) : FloorRow :=
  let predictedUnit := jsRound ((unit : ℚ) * c)
  let targetUnit := jsRound ((unit : ℚ) * baseCoef * c)
  let targetClose := jsRound ((targetUnit : ℚ) * area)
  let raiseFloat : ℚ := (targetClose : ℚ) / (121/100)
  let raise := jsFloor (raiseFloat / 10000) * 10000
  let mc := moveCost area
  let bk := brokerage (raise : ℚ)
  let ot := otherCost (raise : ℚ)
  let buyTarget := raise - mc - bk - ot
  { floor := idx + 1
    predictedUnit := predictedUnit
    targetUnit := targetUnit
    targetClose := targetClose
    raise := raise
    moveCost := mc
    brokerage := bk
    other := ot
    buyTarget := buyTarget
    buyTargetUnit := if 0 < area then jsRound ((buyTarget : ℚ) / area) else 0 }

/-- The full per-floor table (line 168): the pattern's multiplier list, or the all-1
list of length 5 when the pattern is unknown. -/
def floors (price area bc : ℚ) (pattern : String) : List FloorRow :=
  ((floorCoefs pattern).getD [1, 1, 1, 1, 1]).mapIdx
    (fun idx c => floorRow (unitOf price area) area bc c idx)

end Part004

/-! ### General facts about the rounding helpers -/

theorem jsRound_le_jsRound {a b : ℚ} (h : a ≤ b) : jsRound a ≤ jsRound b := by
  rw [jsRound_eq, jsRound_eq]
  exact Int.floor_le_floor (by linarith)

theorem jsRound_intCast (n : ℤ) : jsRound (n : ℚ) = n := by
  rw [jsRound_eq, add_comm, Int.floor_add_int]
  norm_num

theorem jsRound_nonneg {a : ℚ} (h : 0 ≤ a) : 0 ≤ jsRound a := by
  rw [jsRound_eq]
  rw [Int.le_floor]
  push_cast
  linarith

theorem jsRound_zero : jsRound 0 = 0 := by
  rw [jsRound_eq]
  norm_num

theorem jsFloor_zero : jsFloor 0 = 0 := by
  rw [jsFloor_eq]
  norm_num

theorem moveCost_zero : moveCost 0 = 0 := by
  rw [moveCost, if_pos (by norm_num)]
  rw [moveCostLow, show ((0:ℚ) * 132000) = 0 by ring, jsRound_zero]

theorem brokerage_zero : brokerage 0 = 550000 := by
  rw [brokerage, if_pos (by norm_num)]

theorem otherCost_zero : otherCost 0 = 0 := by
  rw [otherCost, show ((0:ℚ) * (75/1000)) = 0 by ring, jsRound_zero]

/-! ### Claim C3: continuity of `moveCost` at the tier boundaries -/

/-- Claim C3 counterexample: the middle-tier formula does NOT meet the high-tier
formula at `area = 80`.  There the interpolated rate is `132000 - 20 * 400 = 124000`,
so the middle-tier expression evaluates to `round(80 * 124000) = 9,920,000`, while
`round(80 * 123000) = 9,840,000`; the claimed equality fails. -/
theorem C3_counterexample :
    moveCostMid 80 = 9920000 ∧
    jsRound (80 * 123000) = 9840000 ∧
    moveCostMid 80 ≠ jsRound (80 * 123000) := by
  refine ⟨?_, ?_, ?_⟩ <;> norm_num [moveCostMid, jsRound_eq]

/-- Claim C3 (amended): `moveCost` is continuous at `area = 60` — the middle-tier
formula there evaluates to `round(60 * 132000)`, the same value as the low-tier
formula — but it is discontinuous at `area = 80`: the middle-tier formula evaluates
to `round(80 * 124000) = 9,920,000` whereas `moveCost 80` takes the high-tier branch
`round(80 * 123000) = 9,840,000`, a jump of `80,000`. -/
theorem C3_moveCost_boundaries :
    moveCostMid 60 = jsRound (60 * 132000) ∧
    moveCostLow 60 = jsRound (60 * 132000) ∧
    moveCost 60 = moveCostMid 60 ∧
    moveCost 60 = 7920000 ∧
    moveCostMid 80 = jsRound (80 * 124000) ∧
    moveCost 80 = jsRound (80 * 123000) ∧
    moveCostMid 80 - moveCost 80 = 80000 := by
  refine ⟨?_, ?_, ?_, ?_, ?_, ?_, ?_⟩ <;>
    norm_num [moveCost, moveCostLow, moveCostMid, moveCostHigh, jsRound_eq]

/-! ### Claim C7: the zero-area guard scenario -/

/-- Claim C7: with `area = 0` and no stored overrides, every stage degrades to the
guard value: the comparable unit price is 0, the target unit price and target total
price are 0, the raise amount is 0, and the buy-target price is
`0 - moveCost(0) - 550,000 - 0 = -550,000` (the unclamped form used by the code),
for any reference price, quality coefficient and floor multiplier.  The second block
checks the same outcome on the `tab-list` entry pipeline. -/
theorem C7_zero_area :
    ∀ (price bc c : ℚ) (idx : ℕ) (r : TabList.Row),
      Part004.unitOf price 0 = 0 ∧
      (Part004.floorRow (Part004.unitOf price 0) 0 bc c idx).targetUnit = 0 ∧
      (Part004.floorRow (Part004.unitOf price 0) 0 bc c idx).targetClose = 0 ∧
      (Part004.floorRow (Part004.unitOf price 0) 0 bc c idx).raise = 0 ∧
      (Part004.floorRow (Part004.unitOf price 0) 0 bc c idx).moveCost = 0 ∧
      (Part004.floorRow (Part004.unitOf price 0) 0 bc c idx).brokerage = 550000 ∧
      (Part004.floorRow (Part004.unitOf price 0) 0 bc c idx).other = 0 ∧
      (Part004.floorRow (Part004.unitOf price 0) 0 bc c idx).buyTarget = -550000 ∧
      (TabList.mapItem { r with area_sqm := some 0 }).unitPrice = 0 ∧
      (TabList.mapItem { r with area_sqm := some 0 }).targetClose = 0 ∧
      (TabList.mapItem { r with area_sqm := some 0 }).raise = 0 ∧
      (TabList.mapItem { r with area_sqm := some 0 }).buyTarget = -550000 := by
  intro price bc c idx r
  have hu : Part004.unitOf price 0 = 0 := by
    rw [Part004.unitOf, if_neg (by norm_num)]
  refine ⟨hu, ?_⟩
  rw [hu]
  simp only [Part004.floorRow, TabList.mapItem, safeNumD, Int.cast_zero, zero_mul, mul_zero,
    zero_div, jsRound_zero, jsFloor_zero, moveCost_zero, brokerage_zero, otherCost_zero,
    lt_self_iff_false, if_false]
  norm_num

/-! ### Claim C2: the comparable-unit-price guard -/

/-- Claim C2: the unit-price derivation returns 0 whenever the (coerced) area is
`<= 0`, and `round(totalPrice / area)` otherwise; a missing / non-finite area or
total price is coerced to 0 before the check.  The operation is a total function
(it never throws and the `area > 0` guard keeps the division away from zero). -/
theorem C2_unitPrice :
    ∀ r : TabList.Row,
      (safeNumD r.area_sqm 0 ≤ 0 → (TabList.mapItem r).unitPrice = 0) ∧
      (0 < safeNumD r.area_sqm 0 →
        (TabList.mapItem r).unitPrice =
          jsRound (safeNumD r.max_price 0 / safeNumD r.area_sqm 0)) ∧
      (r.area_sqm = none → (TabList.mapItem r).unitPrice = 0) ∧
      (r.max_price = none → 0 < safeNumD r.area_sqm 0 →
        (TabList.mapItem r).unitPrice = jsRound (0 / safeNumD r.area_sqm 0)) := by
  intro r
  refine ⟨?_, ?_, ?_, ?_⟩
  · intro h
    simp only [TabList.mapItem]
    rw [if_neg (not_lt.mpr h)]
  · intro h
    simp only [TabList.mapItem]
    rw [if_pos h]
  · intro h
    simp only [TabList.mapItem, h, safeNumD]
    rw [if_neg (by norm_num)]
  · intro h h2
    simp only [TabList.mapItem, h, safeNumD] at h2 ⊢
    rw [if_pos h2]

/-- Claim C2 witness: a row whose `area_sqm` column is null/non-finite (coerced to 0)
yields unit price 0, and a positive-area row yields the rounded quotient. -/
theorem C2_unitPrice_witness :
    (TabList.mapItem
      { area_sqm := none, max_price := some 30, coef_total := none,
        past_min := none, reins_registered_date := none, contract_date := none }).unitPrice = 0 ∧
    (TabList.mapItem
      { area_sqm := some 10, max_price := some 30, coef_total := none,
        past_min := none, reins_registered_date := none, contract_date := none }).unitPrice =
      jsRound (safeNumD (some 30) 0 / safeNumD (some 10) 0) := by
  constructor
  · exact (C2_unitPrice _).2.2.1 rfl
  · exact (C2_unitPrice _).2.1 (by simp [safeNumD])

/-! ### Claim C1: the stored-value-first coalescing of target prices -/

/-- Claim C1 counterexample: at the `tab-list` call site (lines 107-108) the claimed
two-stage rule fails.  For a row with `area = 10`, `max_price = 30`, `coef_total = 1.1`
(and no overrides, which this call site cannot carry), the code computes
`targetClose = round(unit * area * coef) = round(3 * 10 * 1.1) = 33` in a single
rounding, while the claimed `round(targetUnitPrice * area)` with
`targetUnitPrice = round(unit * coef * floorMultiplier) = round(3 * 1.1 * 1) = 3`
gives `round(3 * 10) = 30`. -/
theorem C1_counterexample :
    (TabList.mapItem
      { area_sqm := some 10, max_price := some 30, coef_total := some (11/10),
        past_min := none, reins_registered_date := none, contract_date := none }).targetClose = 33 ∧
    jsRound ((jsRound (((TabList.mapItem
      { area_sqm := some 10, max_price := some 30, coef_total := some (11/10),
        past_min := none, reins_registered_date := none, contract_date := none }).unitPrice : ℚ)
        * (11/10) * 1) : ℚ) * 10) = 30 ∧
    (33 : ℤ) ≠ 30 := by
  have hu : (TabList.mapItem
      { area_sqm := some 10, max_price := some 30, coef_total := some (11/10),
        past_min := none, reins_registered_date := none, contract_date := none }).unitPrice = 3 := by
    simp only [TabList.mapItem, safeNumD]
    rw [if_pos (by norm_num)]
    norm_num [jsRound_eq]
  refine ⟨?_, ?_, by norm_num⟩
  · simp only [TabList.mapItem, safeNumD]
    rw [if_pos (by norm_num)]
    norm_num [jsRound_eq]
  · rw [hu]
    norm_num [jsRound_eq]

/-- Claim C1 (amended): the stored-value-first rule holds at the stock-list call site
(`src/app/tab-stock/page.tsx` lines 154-163): the target unit price is the stored
`target_unit_price` when present and non-zero, otherwise
`round(base_unit_price * coef * floorCoef)`; the target total price is the stored
`target_close_price` when present and non-zero, otherwise `round(targetUnit * area)`;
the raise amount is the stored `raise_price` when present and non-zero, otherwise the
recomputed value.  The entry-list call sites (`tab-list` line 108, top page, sample
list) carry no stored overrides and compute the target total in a single rounding
`round(unit * area * coef)` with no floor multiplier, so the two-stage rule does not
hold at every call site. -/
theorem C1_stored_first :
    ∀ (now : ℤ) (r : TabStock.StockRow),
      (safeNum r.target_unit_price ≠ 0 →
        (TabStock.mapCard now r).targetUnit = safeNum r.target_unit_price) ∧
      (safeNum r.target_unit_price = 0 →
        (TabStock.mapCard now r).targetUnit =
          (jsRound (safeNum r.base_unit_price * TabStock.coefOf r * TabStock.floorCoefOf r) : ℚ)) ∧
      (safeNum r.target_close_price ≠ 0 →
        (TabStock.mapCard now r).targetPrice = safeNum r.target_close_price) ∧
      (safeNum r.target_close_price = 0 →
        (TabStock.mapCard now r).targetPrice =
          (jsRound ((TabStock.mapCard now r).targetUnit * safeNum r.area_sqm) : ℚ)) ∧
      (safeNum r.raise_price ≠ 0 →
        (TabStock.mapCard now r).raise = safeNum r.raise_price) := by
  intro now r
  refine ⟨fun h => ?_, fun h => ?_, fun h => ?_, fun h => ?_, fun h => ?_⟩
  · simp only [TabStock.mapCard, jsOr]
    rw [if_neg h]
  · simp only [TabStock.mapCard, jsOr]
    rw [if_pos h]
  · simp only [TabStock.mapCard, jsOr]
    rw [if_neg h]
  · simp only [TabStock.mapCard, jsOr]
    rw [if_pos h]
  · simp only [TabStock.mapCard, jsOr]
    rw [if_neg h]

/-- Claim C1 witness: concrete stored overrides win, and a zero override is
recomputed. -/
theorem C1_stored_first_witness :
    (TabStock.mapCard 0
      { area_sqm := some 50, list_price := some 20000000, target_unit_price := some 777,
        target_close_price := some 888, buy_target_price := none, raise_price := none,
        base_unit_price := some 300000, coef_total := some 1, floor_coef := some 1,
        registered_date := none }).targetUnit = safeNum (some 777) ∧
    (TabStock.mapCard 0
      { area_sqm := some 50, list_price := some 20000000, target_unit_price := some 0,
        target_close_price := some 888, buy_target_price := none, raise_price := none,
        base_unit_price := some 300000, coef_total := some 1, floor_coef := some 1,
        registered_date := none }).targetUnit =
      (jsRound (safeNum (some 300000) *
        TabStock.coefOf
          { area_sqm := some 50, list_price := some 20000000, target_unit_price := some 0,
            target_close_price := some 888, buy_target_price := none, raise_price := none,
            base_unit_price := some 300000, coef_total := some 1, floor_coef := some 1,
            registered_date := none } *
        TabStock.floorCoefOf
          { area_sqm := some 50, list_price := some 20000000, target_unit_price := some 0,
            target_close_price := some 888, buy_target_price := none, raise_price := none,
            base_unit_price := some 300000, coef_total := some 1, floor_coef := some 1,
            registered_date := none }) : ℚ) := by
  constructor
  · exact (C1_stored_first 0 _).1 (by simp [safeNum, safeNumD])
  · exact (C1_stored_first 0 _).2.1 rfl

/-! ### Claim C4: the quality-coefficient default -/

/-- Claim C4 counterexample: at the `tab-list` call site (line 105,
`safeNum(r.coef_total, 1)`) a stored `coef_total` of exactly 0 is NOT replaced by 1:
it is used as 0, and the target close price collapses to 0 with it. -/
theorem C4_counterexample :
    (TabList.mapItem
      { area_sqm := some 10, max_price := some 30, coef_total := some 0,
        past_min := none, reins_registered_date := none, contract_date := none }).coefTotal = 0 ∧
    (TabList.mapItem
      { area_sqm := some 10, max_price := some 30, coef_total := some 0,
        past_min := none, reins_registered_date := none, contract_date := none }).targetClose = 0 ∧
    ((0 : ℚ) ≠ 1) := by
  refine ⟨rfl, ?_, by norm_num⟩
  simp only [TabList.mapItem, safeNumD, mul_zero, jsRound_zero]

/-- Claim C4 (amended): the falsy-coalescing default (`0`, missing and non-finite all
become 1) holds at the stock-list site (`safeNum(r.coef_total) || 1`) and at the
floor-table site (`safeNum(... ) || 1` in the `tab-list` client component), but the
entry-list sites (`tab-list` line 105, top page, sample list) use
`safeNum(r.coef_total, 1)`, which replaces only missing / non-finite values: a stored
coefficient of exactly 0 is used as 0 there. -/
theorem C4_coef_default :
    ∀ (r : TabStock.StockRow) (r2 : TabList.Row) (it yc : Option ℚ),
      (r.coef_total = some 0 → TabStock.coefOf r = 1) ∧
      (r.coef_total = none → TabStock.coefOf r = 1) ∧
      (Part004.baseCoef (some 0) it yc = 1) ∧
      (r2.coef_total = some 0 → (TabList.mapItem r2).coefTotal = 0) ∧
      (r2.coef_total = none → (TabList.mapItem r2).coefTotal = 1) := by
  intro r r2 it yc
  refine ⟨fun h => ?_, fun h => ?_, ?_, fun h => ?_, fun h => ?_⟩
  · simp [TabStock.coefOf, jsOr, safeNum, safeNumD, h]
  · simp [TabStock.coefOf, jsOr, safeNum, safeNumD, h]
  · simp [Part004.baseCoef, jsOr, safeNum, safeNumD]
  · simp [TabList.mapItem, safeNumD, h]
  · simp [TabList.mapItem, safeNumD, h]

/-- Claim C4 witness: concrete rows with `coef_total = 0` or `coef_total = null` at
both kinds of call site. -/
theorem C4_coef_default_witness :
    TabStock.coefOf
      { area_sqm := none, list_price := none, target_unit_price := none,
        target_close_price := none, buy_target_price := none, raise_price := none,
        base_unit_price := none, coef_total := some 0, floor_coef := none,
        registered_date := none } = 1 ∧
    (TabList.mapItem
      { area_sqm := none, max_price := none, coef_total := some 0,
        past_min := none, reins_registered_date := none, contract_date := none }).coefTotal = 0 ∧
    (TabList.mapItem
      { area_sqm := none, max_price := none, coef_total := none,
        past_min := none, reins_registered_date := none, contract_date := none }).coefTotal = 1 := by
  refine ⟨(C4_coef_default _
    { area_sqm := none, max_price := none, coef_total := some 0,
      past_min := none, reins_registered_date := none, contract_date := none }
    none none).1 rfl, ?_, ?_⟩
  · exact (C4_coef_default
      { area_sqm := none, list_price := none, target_unit_price := none,
        target_close_price := none, buy_target_price := none, raise_price := none,
        base_unit_price := none, coef_total := some 0, floor_coef := none,
        registered_date := none } _ none none).2.2.2.1 rfl
  · exact (C4_coef_default
      { area_sqm := none, list_price := none, target_unit_price := none,
        target_close_price := none, buy_target_price := none, raise_price := none,
        base_unit_price := none, coef_total := some 0, floor_coef := none,
        registered_date := none } _ none none).2.2.2.2 rfl

/-! ### Claim C5: the opportunity flags -/

/-- Claim C5: for every scored record, `near` (gapNarrow) is the symmetric test
`|pastMin - buyTarget| <= 300,000`, `fast` (turnoverFast) is
`0 < days ∧ days <= 30`, `high` (coefficientHigh) is
`targetClose > pastMax ∧ coefTotal >= 1.05`, `focus = near && fast`, and hence
`focus` implies both `near` and `fast`. -/
theorem C5_judge :
    ∀ p : TabList.Item,
      ((TabList.judge p).near = true ↔ |p.pastMin - (p.buyTarget : ℚ)| ≤ 300000) ∧
      ((TabList.judge p).fast = true ↔ 0 < p.pastMiniDays ∧ p.pastMiniDays ≤ 30) ∧
      ((TabList.judge p).high = true ↔ p.pastMax < (p.targetClose : ℚ) ∧ 105/100 ≤ p.coefTotal) ∧
      ((TabList.judge p).focus = ((TabList.judge p).near && (TabList.judge p).fast)) ∧
      ((TabList.judge p).focus = true → (TabList.judge p).near = true ∧ (TabList.judge p).fast = true) := by
  intro p
  refine ⟨?_, ?_, ?_, rfl, ?_⟩
  · simp [TabList.judge, TabList.thGap]
  · simp [TabList.judge, TabList.thDays]
  · simp [TabList.judge, TabList.thCoef]
  · intro h
    have h2 : ((TabList.judge p).near && (TabList.judge p).fast) = true := h
    exact ⟨(Bool.and_eq_true _ _ |>.mp h2).1, (Bool.and_eq_true _ _ |>.mp h2).2⟩

/-- Claim C5 witness: a concrete record (pastMin equal to buyTarget, 20 elapsed days)
is flagged near, fast and focus. -/
theorem C5_judge_witness :
    (TabList.judge ⟨0, 0, 0, 0, 0, 0, 0, 0, 20⟩).near = true ∧
    (TabList.judge ⟨0, 0, 0, 0, 0, 0, 0, 0, 20⟩).fast = true ∧
    (TabList.judge ⟨0, 0, 0, 0, 0, 0, 0, 0, 20⟩).focus = true := by
  have h := C5_judge ⟨0, 0, 0, 0, 0, 0, 0, 0, 20⟩
  have hn : (TabList.judge ⟨0, 0, 0, 0, 0, 0, 0, 0, 20⟩).near = true := h.1.mpr (by simp)
  have hf : (TabList.judge ⟨0, 0, 0, 0, 0, 0, 0, 0, 20⟩).fast = true :=
    h.2.1.mpr ⟨by decide, by decide⟩
  have hfoc : (TabList.judge ⟨0, 0, 0, 0, 0, 0, 0, 0, 20⟩).focus = true := by
    rw [h.2.2.2.1, hn, hf]
    rfl
  exact ⟨hn, hf, hfoc⟩

/-! ### Claim C6: elapsed days -/

/-- Claim C6 counterexample: the claim says that with no contract date present the
elapsed days are taken between registration and now; but the entry-list `diffDays`
(`tab-list` line 57) returns 0 whenever either argument is missing — it never falls
back to now — while the stock-list `diffDays` always measures registration to now.
With registration at epoch 0, no contract date, and now 10 days later, the entry-list
engine yields 0 where the claim requires 10 (the value the stock-list helper gives). -/
theorem C6_counterexample :
    TabList.diffDays (some 0) none = 0 ∧
    TabStock.diffDays 864000000 (some 0) = 10 ∧
    TabList.diffDays (some 0) none ≠ TabStock.diffDays 864000000 (some 0) := by
  have h1 : TabList.diffDays (some 0) none = 0 := rfl
  have h2 : TabStock.diffDays 864000000 (some 0) = 10 := by
    show jsRound (|(864000000 : ℚ) - (0 : ℚ)| / 86400000) = 10
    norm_num [jsRound_eq]
  exact ⟨h1, h2, by rw [h1, h2]; norm_num⟩

/-- Claim C6 (amended): the entry-list sites compute the whole-day difference between
the registered and the contracted date and yield 0 when either is missing or
unparseable (no fallback to now); the stock-list site computes the whole-day
difference between the registered date and now regardless of any contract date, and
yields 0 when registration is missing.  Both are total functions — bad dates give 0,
never an error. -/
theorem C6_diffDays :
    ∀ (a : Option ℤ) (x y now : ℤ),
      TabList.diffDays none a = 0 ∧
      TabList.diffDays a none = 0 ∧
      TabList.diffDays (some x) (some y) = jsRound (|(x : ℚ) - (y : ℚ)| / 86400000) ∧
      TabStock.diffDays now none = 0 ∧
      TabStock.diffDays now (some x) = jsRound (|(now : ℚ) - (x : ℚ)| / 86400000) := by
  intro a x y now
  refine ⟨?_, ?_, rfl, rfl, rfl⟩
  · cases a <;> rfl
  · cases a <;> rfl

/-! ### Claim C8: the floor-coefficient table and its fallbacks -/

/-- Claim C8: the four fixed patterns map to exactly the listed five-multiplier
sequences; an unknown or empty pattern name yields the all-1.0 sequence of length 5
(and the edit-page lookup returns 1); a requested floor inside `1..5` indexes
`list[floor - 1]`; a floor with no entry (below 1 or beyond the list) falls back to
the first entry `list[0]`. -/
theorem C8_floorCoefs :
    floorCoefs "①保守的" = some [1, 98/100, 95/100, 9/10, 85/100] ∧
    floorCoefs "②中間" = some [1, 99/100, 96/100, 92/100, 88/100] ∧
    floorCoefs "③攻め" = some [1, 1, 99/100, 98/100, 97/100] ∧
    floorCoefs "④超攻め" = some [98/100, 99/100, 1, 103/100, 107/100] ∧
    floorCoefs "" = none ∧
    (∀ p : String, floorCoefs p = none →
      (floorCoefs p).getD [1, 1, 1, 1, 1] = [1, 1, 1, 1, 1] ∧
      ((floorCoefs p).getD [1, 1, 1, 1, 1]).length = 5 ∧
      ∀ f : Option ℤ, RegistEdit.maxFloorCoef p f = 1) ∧
    (∀ (p : String) (l : List ℚ) (f : ℤ), floorCoefs p = some l →
      1 ≤ f → f ≤ l.length →
      RegistEdit.maxFloorCoef p (some f) = (jsIndex l (f - 1)).getD 1) ∧
    (∀ (p : String) (l : List ℚ) (f : ℤ), floorCoefs p = some l →
      (f < 1 ∨ (l.length : ℤ) < f) →
      RegistEdit.maxFloorCoef p (some f) = l.headD 1) := by
  refine ⟨rfl, rfl, rfl, rfl, rfl, ?_, ?_, ?_⟩
  · intro p hp
    refine ⟨by rw [hp]; rfl, by rw [hp]; rfl, fun f => ?_⟩
    simp only [RegistEdit.maxFloorCoef, hp]
  · intro p l f hp h1 h2
    have hnil : l ≠ [] := by
      intro h
      subst h
      simp only [List.length_nil, Nat.cast_zero] at h2
      omega
    have hidx : ∃ c, jsIndex l (f - 1) = some c := by
      rw [jsIndex, if_neg (by omega)]
      rcases Option.eq_none_or_eq_some (l.get? (f - 1).toNat) with hnone | hsome
      · exfalso
        have hlen := List.get?_eq_none.mp hnone
        omega
      · exact hsome
    obtain ⟨c, hc⟩ := hidx
    simp only [RegistEdit.maxFloorCoef, hp, hc]
    rw [if_neg (by simp [List.isEmpty_iff, hnil])]
    rfl
  · intro p l f hp hf
    have hnone : jsIndex l (f - 1) = none := by
      rcases hf with hlt | hgt
      · rw [jsIndex, if_pos (by omega)]
      · rw [jsIndex]
        by_cases hneg : f - 1 < 0
        · rw [if_pos hneg]
        · rw [if_neg hneg]
          exact List.get?_eq_none.mpr (by omega)
    simp only [RegistEdit.maxFloorCoef, hp, hnone]
    by_cases he : l.isEmpty
    · rw [if_pos he]
      rw [List.isEmpty_iff.mp he]
      rfl
    · rw [if_neg he]

/-- Claim C8 witness: the unknown pattern "custom" yields 1, floor 2 of the
conservative pattern yields its second multiplier 0.98, and floor 6 (no entry) falls
back to the first entry 1.0. -/
theorem C8_floorCoefs_witness :
    RegistEdit.maxFloorCoef "custom" (some 3) = 1 ∧
    RegistEdit.maxFloorCoef "①保守的" (some 2) =
      (jsIndex [1, 98/100, 95/100, 9/10, 85/100] (2 - 1)).getD 1 ∧
    RegistEdit.maxFloorCoef "①保守的" (some 6) =
      ([1, 98/100, 95/100, 9/10, 85/100] : List ℚ).headD 1 := by
  have h := C8_floorCoefs
  refine ⟨(h.2.2.2.2.2.1 "custom" rfl).2.2 (some 3), ?_, ?_⟩
  · exact h.2.2.2.2.2.2.1 "①保守的" [1, 98/100, 95/100, 9/10, 85/100] 2 rfl (by decide)
      (by simp)
  · exact h.2.2.2.2.2.2.2 "①保守的" [1, 98/100, 95/100, 9/10, 85/100] 6 rfl
      (Or.inr (by simp))

/-! ### Claim C9: the brokerage fee is monotone with a 550,000 floor -/

theorem brokerage_branch_lower {r : ℚ} (h : ¬ r < 10000000) :
    (550000 : ℤ) ≤ jsRound (r * (55/1000)) := by
  push_neg at h
  have h1 : (550000 : ℚ) ≤ r * (55/1000) := by nlinarith
  have h2 : jsRound ((550000 : ℚ)) = 550000 := by
    rw [jsRound_eq]
    norm_num
  calc (550000 : ℤ) = jsRound ((550000 : ℚ)) := h2.symm
    _ ≤ jsRound (r * (55/1000)) := jsRound_le_jsRound h1

/-- Claim C9: on nonnegative raise amounts the brokerage fee is monotone
nondecreasing and never below 550,000, and the flat branch and the percentage branch
agree exactly at the 10,000,000 threshold (`round(10,000,000 * 0.055) = 550,000`),
so there is no discontinuity there. -/
theorem C9_brokerage :
    ∀ r1 r2 : ℚ, 0 ≤ r1 → r1 ≤ r2 →
      brokerage r1 ≤ brokerage r2 ∧
      (550000 : ℤ) ≤ brokerage r1 ∧
      brokerage 10000000 = jsRound (10000000 * (55/1000)) ∧
      jsRound ((10000000 : ℚ) * (55/1000)) = 550000 := by
  intro r1 r2 h0 h12
  have hthr : brokerage 10000000 = jsRound (10000000 * (55/1000)) := by
    rw [brokerage, if_neg (by norm_num)]
  have hthv : jsRound ((10000000 : ℚ) * (55/1000)) = 550000 := by
    rw [jsRound_eq]
    norm_num
  refine ⟨?_, ?_, hthr, hthv⟩
  · by_cases h1 : r1 < 10000000 <;> by_cases h2 : r2 < 10000000
    · rw [brokerage, brokerage, if_pos h1, if_pos h2]
    · rw [brokerage, brokerage, if_pos h1, if_neg h2]
      exact brokerage_branch_lower h2
    · exact absurd (lt_of_le_of_lt h12 h2) h1
    · rw [brokerage, brokerage, if_neg h1, if_neg h2]
      exact jsRound_le_jsRound (mul_le_mul_of_nonneg_right h12 (by norm_num))
  · rw [brokerage]
    by_cases h1 : r1 < 10000000
    · rw [if_pos h1]
    · rw [if_neg h1]
      exact brokerage_branch_lower h1

/-- Claim C9 witness: the monotonicity and the floor at the concrete pair
`raise = 0` and `raise = 20,000,000`, and the exact agreement at the threshold. -/
theorem C9_brokerage_witness :
    brokerage 0 ≤ brokerage 20000000 ∧
    (550000 : ℤ) ≤ brokerage 0 ∧
    brokerage 10000000 = jsRound (10000000 * (55/1000)) ∧
    jsRound ((10000000 : ℚ) * (55/1000)) = 550000 := by
  have h := C9_brokerage 0 20000000 (le_refl 0) (by simp)
  exact ⟨h.1, h.2.1, h.2.2.1, h.2.2.2⟩

/-! ### Claim C10: absolute value makes elapsed days sign-insensitive -/

/-- Claim C10: `diffDays` takes the absolute difference before rounding, so the
elapsed days are nonnegative for every pair of parsed dates; for whole-day
timestamps whose contract day strictly precedes the registration day the result is
exactly the (positive) day count, and such a record with the count within the
30-day threshold is flagged `turnoverFast` — and `focus` as soon as it is also
`gapNarrow`. -/
theorem C10_absolute_days :
    (∀ x y : ℤ, 0 ≤ TabList.diffDays (some x) (some y)) ∧
    (∀ dr dc : ℤ, dc < dr →
      TabList.diffDays (some (86400000 * dr)) (some (86400000 * dc)) = dr - dc ∧
      0 < TabList.diffDays (some (86400000 * dr)) (some (86400000 * dc))) ∧
    (∀ p : TabList.Item, 0 < p.pastMiniDays → p.pastMiniDays ≤ 30 →
      (TabList.judge p).fast = true ∧
      ((TabList.judge p).near = true → (TabList.judge p).focus = true)) := by
  refine ⟨?_, ?_, ?_⟩
  · intro x y
    show 0 ≤ jsRound (|(x : ℚ) - (y : ℚ)| / 86400000)
    exact jsRound_nonneg (div_nonneg (abs_nonneg _) (by norm_num))
  · intro dr dc h
    have key : TabList.diffDays (some (86400000 * dr)) (some (86400000 * dc)) = dr - dc := by
      show jsRound (|((86400000 * dr : ℤ) : ℚ) - ((86400000 * dc : ℤ) : ℚ)| / 86400000) = dr - dc
      have harg : ((86400000 * dr : ℤ) : ℚ) - ((86400000 * dc : ℤ) : ℚ) =
          86400000 * ((dr - dc : ℤ) : ℚ) := by
        push_cast
        ring
      have hpos : (0 : ℚ) < ((dr - dc : ℤ) : ℚ) := by
        have : (0 : ℤ) < dr - dc := by omega
        exact_mod_cast this
      rw [harg, abs_of_pos (by positivity), mul_comm, mul_div_assoc,
        div_self (by norm_num : (86400000 : ℚ) ≠ 0), mul_one]
      exact jsRound_intCast _
    exact ⟨key, by rw [key]; omega⟩
  · intro p h1 h2
    have hfast : (TabList.judge p).fast = true := by
      simp only [TabList.judge, TabList.thDays, Bool.and_eq_true, decide_eq_true_eq]
      exact ⟨h1, h2⟩
    refine ⟨hfast, fun hnear => ?_⟩
    show ((TabList.judge p).near && (TabList.judge p).fast) = true
    rw [hnear, hfast]
    rfl

/-- Claim C10 witness: a contract day one day before the registration day still
yields a positive elapsed-days figure, and a record with 10 elapsed days and zero
gap is flagged fast and focus. -/
theorem C10_absolute_days_witness :
    0 ≤ TabList.diffDays (some 5) (some 99) ∧
    TabList.diffDays (some (86400000 * 3)) (some (86400000 * 1)) = 2 ∧
    (TabList.judge ⟨1, 1, 1, 1, 1, 1, 1, 1, 10⟩).fast = true ∧
    (TabList.judge ⟨1, 1, 1, 1, 1, 1, 1, 1, 10⟩).focus = true := by
  have h := C10_absolute_days
  refine ⟨h.1 5 99, ?_, ?_, ?_⟩
  · have hk := (h.2.1 3 1 (by decide)).1
    rw [hk]
    decide
  · exact (h.2.2 ⟨1, 1, 1, 1, 1, 1, 1, 1, 10⟩ (by decide) (by decide)).1
  · exact (h.2.2 ⟨1, 1, 1, 1, 1, 1, 1, 1, 10⟩ (by decide) (by decide)).2
      (by simp [TabList.judge, TabList.thGap])
